import Mathlib

/-!
Verification of the download-orchestration web layer (src/web.py).

The file shallowly embeds the module-level state (`app.settings`,
`app.downloader`) and the route handlers `change_output`,
`download_search`, `download_objects`, `get_settings` and
`change_settings` as pure Lean functions over an explicit application
state.  External collaborators (`Song.from_search_term`,
`Downloader.pool_download`, the `Downloader` constructor) are passed in
as function parameters, since the web layer only forwards to them.
Pydantic request validation of `SongModel` is embedded over a raw
record whose fields may each be absent.
-/

namespace Web

/-- The pydantic song model of `src/web.py` (`SongModel`): every field is
required except `download_url`, which is `Optional[str] = None`. -/
structure SongModel where
  name : String
  artists : List String
  artist : String
  album_name : String
  album_artist : String
  genres : List String
  disc_number : Int
  disc_count : Int
  copyright : String
  duration : Int
  year : Int
  date : String
  track_number : Int
  tracks_count : Int
  isrc : String
  song_id : String
  cover_url : String
  explicit : Bool
  publisher : String
  url : String
  download_url : Option String
  deriving Repr, DecidableEq

/-- The spotdl `Song` object constructed by the handlers.  The web layer
treats it as opaque metadata; its fields match `SongModel`, and
`Song(**song.dict())` copies them across. -/
structure Song where
  name : String
  artists : List String
  artist : String
  album_name : String
  album_artist : String
  genres : List String
  disc_number : Int
  disc_count : Int
  copyright : String
  duration : Int
  year : Int
  date : String
  track_number : Int
  tracks_count : Int
  isrc : String
  song_id : String
  cover_url : String
  explicit : Bool
  publisher : String
  url : String
  download_url : Option String
  deriving Repr, DecidableEq

/-- `Song(**song.dict())` in `download_objects`: the spotdl song is built
directly from the validated model fields, one for one. -/
def songOfModel (m : SongModel) : Song :=
  { name := m.name
    artists := m.artists
    artist := m.artist
    album_name := m.album_name
    album_artist := m.album_artist
    genres := m.genres
    disc_number := m.disc_number
    disc_count := m.disc_count
    copyright := m.copyright
    duration := m.duration
    year := m.year
    date := m.date
    track_number := m.track_number
    tracks_count := m.tracks_count
    isrc := m.isrc
    song_id := m.song_id
    cover_url := m.cover_url
    explicit := m.explicit
    publisher := m.publisher
    url := m.url
    download_url := m.download_url }

/-- The module-level settings dict `app.settings : Dict[str, Any]`, with
the keys the handlers read and write.  Values may be `None` in the dict,
hence every field is an `Option`. -/
structure SettingsDict where
  verbose : Option Bool
  cache_path : Option String
  audio_provider : Option String
  lyrics_provider : Option String
  ffmpeg : Option String
  variable_bitrate : Option Int
  constant_bitrate : Option Int
  ffmpeg_args : Option (List String)
  format : Option String
  save_file : Option String
  m3u : Option String
  output : Option String
  overwrite : Option String
  client_id : Option String
  client_secret : Option String
  user_auth : Option Bool
  threads : Option Int
  browsers : Option (List String)
  progress_handler : Option String
  deriving Repr, DecidableEq

/-- The pydantic settings model (`SettingsModel`): every field is
`Optional` with no explicit default, so pydantic treats each as
defaulting to `None`. -/
structure SettingsModel where
  verbose : Option Bool
  cache_path : Option String
  audio_provider : Option String
  lyrics_provider : Option String
  ffmpeg : Option String
  variable_bitrate : Option Int
  constant_bitrate : Option Int
  ffmpeg_args : Option (List String)
  format : Option String
  save_file : Option String
  m3u : Option String
  output : Option String
  overwrite : Option String
  client_id : Option String
  client_secret : Option String
  user_auth : Option Bool
  threads : Option Int
  browsers : Option (List String)
  progress_handler : Option String
  deriving Repr, DecidableEq

/-- `SettingsModel(**app.settings)` in `get_settings`: the model is built
from the dict entries, key for key. -/
def settingsModelOfDict (d : SettingsDict) : SettingsModel :=
  { verbose := d.verbose
    cache_path := d.cache_path
    audio_provider := d.audio_provider
    lyrics_provider := d.lyrics_provider
    ffmpeg := d.ffmpeg
    variable_bitrate := d.variable_bitrate
    constant_bitrate := d.constant_bitrate
    ffmpeg_args := d.ffmpeg_args
    format := d.format
    save_file := d.save_file
    m3u := d.m3u
    output := d.output
    overwrite := d.overwrite
    client_id := d.client_id
    client_secret := d.client_secret
    user_auth := d.user_auth
    threads := d.threads
    browsers := d.browsers
    progress_handler := d.progress_handler }

/-- The spotdl `Downloader` object held in `app.downloader`, with the
attributes the web layer passes to its constructor in `change_settings`
plus the `output` attribute mutated by `change_output`. -/
structure Downloader where
  audio_provider : Option String
  lyrics_provider : Option String
  ffmpeg : Option String
  variable_bitrate : Option Int
  constant_bitrate : Option Int
  ffmpeg_args : Option (List String)
  output_format : Option String
  save_file : Option String
  threads : Option Int
  output : Option String
  overwrite : Option String
  m3u_file : Option String
  progress_handler : Option String
  deriving Repr, DecidableEq

/-- The `Downloader(...)` constructor call of `change_settings`, mapping
the merged settings entries to constructor arguments
(`output_format=settings_cpy\x7b"format"\x7d`, `m3u_file=settings_cpy\x7b"m3u"\x7d`,
`progress_handler=None`). -/
def mkDownloader (d : SettingsDict) : Downloader :=
  { audio_provider := d.audio_provider
    lyrics_provider := d.lyrics_provider
    ffmpeg := d.ffmpeg
    variable_bitrate := d.variable_bitrate
    constant_bitrate := d.constant_bitrate
    ffmpeg_args := d.ffmpeg_args
    output_format := d.format
    save_file := d.save_file
    threads := d.threads
    output := d.output
    overwrite := d.overwrite
    m3u_file := d.m3u
    progress_handler := none }

/-- The mutable module state: `app.downloader` and `app.settings`. -/
structure AppState where
  downloader : Downloader
  settings : SettingsDict
  deriving Repr, DecidableEq

/-- Handler `change_output(output)`: assigns `app.downloader.output` and
returns `True`.  It mutates nothing else. -/
def change_output (s : AppState) (output : String) : AppState × Bool :=
  ({ s with downloader := { s.downloader with output := some output } }, true)

/-- Handler `get_settings()`: returns `SettingsModel(**app.settings)`
without mutating any state. -/
def get_settings (s : AppState) : AppState × SettingsModel :=
  (s, settingsModelOfDict s.settings)

/-- The dict update of `change_settings`:
`settings_cpy.update(\x7bk: v for k, v in settings.dict().items() if v is not None\x7d)`.
Each key is overwritten exactly when the incoming model field is not
`None`. -/
def mergeSettings (cur : SettingsDict) (new : SettingsModel) : SettingsDict :=
  { verbose := match new.verbose with | some v => some v | none => cur.verbose
    cache_path := match new.cache_path with | some v => some v | none => cur.cache_path
    audio_provider := match new.audio_provider with | some v => some v | none => cur.audio_provider
    lyrics_provider := match new.lyrics_provider with | some v => some v | none => cur.lyrics_provider
    ffmpeg := match new.ffmpeg with | some v => some v | none => cur.ffmpeg
    variable_bitrate := match new.variable_bitrate with | some v => some v | none => cur.variable_bitrate
    constant_bitrate := match new.constant_bitrate with | some v => some v | none => cur.constant_bitrate
    ffmpeg_args := match new.ffmpeg_args with | some v => some v | none => cur.ffmpeg_args
    format := match new.format with | some v => some v | none => cur.format
    save_file := match new.save_file with | some v => some v | none => cur.save_file
    m3u := match new.m3u with | some v => some v | none => cur.m3u
    output := match new.output with | some v => some v | none => cur.output
    overwrite := match new.overwrite with | some v => some v | none => cur.overwrite
    client_id := match new.client_id with | some v => some v | none => cur.client_id
    client_secret := match new.client_secret with | some v => some v | none => cur.client_secret
    user_auth := match new.user_auth with | some v => some v | none => cur.user_auth
    threads := match new.threads with | some v => some v | none => cur.threads
    browsers := match new.browsers with | some v => some v | none => cur.browsers
    progress_handler := match new.progress_handler with | some v => some v | none => cur.progress_handler }

/-- Handler `change_settings(settings)`, parameterised by the external
`Downloader` constructor `ctor` (which may raise, modelled as `Except`).
The handler copies `app.settings`, updates the copy with the non-`None`
incoming fields, rebuilds `app.downloader` from the merged copy and
returns `True`.  `app.settings` itself is never reassigned.  If the
constructor raises, the exception propagates and no state changes. -/
def change_settings (ctor : SettingsDict → Except String Downloader)
    (s : AppState) (settings : SettingsModel) : AppState × Except String Bool :=
  let settings_cpy := mergeSettings s.settings settings
  match ctor settings_cpy with
  | Except.error e => (s, Except.error e)
  | Except.ok d => ({ s with downloader := d }, Except.ok true)

/-- The non-raising instance of the `Downloader` constructor, used where
construction succeeds. -/
def ctorOk : SettingsDict → Except String Downloader :=
  fun d => Except.ok (mkDownloader d)

/-- The external collaborators the download handlers call:
`Song.from_search_term` and `app.downloader.pool_download`.
`pool_download` returns a song together with an optional local file
path. -/
structure Env where
  fromSearchTerm : String → Song
  poolDownload : Song → Song × Option String

/-- The response of a download handler: either the `(song, path)` tuple
or a `FileResponse(path)`. -/
inductive DlResponse where
  | pair (song : Song) (path : Option String)
  | fileResponse (path : String)
  deriving Repr, DecidableEq

/-- Handler `download_search(query, return_file)`: resolves the query via
`Song.from_search_term`, runs `pool_download`, and either raises
`ValueError("No file found")` (when a file is requested but no path was
produced), serves the file, or returns the `(song, path)` tuple. -/
def download_search (env : Env) (query : String) (return_file : Bool) :
    Except String DlResponse :=
  let r := env.poolDownload (env.fromSearchTerm query)
  if return_file = true then
    match r.2 with
    | none => Except.error "No file found"
    | some p => Except.ok (DlResponse.fileResponse p)
  else
    Except.ok (DlResponse.pair r.1 r.2)

/-- Handler `download_objects(song, return_file)`: builds the spotdl song
directly from the validated model via `Song(**song.dict())`, runs
`pool_download`, and packages the result exactly as `download_search`
does. -/
def download_objects (env : Env) (song : SongModel) (return_file : Bool) :
    Except String DlResponse :=
  let r := env.poolDownload (songOfModel song)
  if return_file = true then
    match r.2 with
    | none => Except.error "No file found"
    | some p => Except.ok (DlResponse.fileResponse p)
  else
    Except.ok (DlResponse.pair r.1 r.2)

/-- A raw object-download request body before pydantic validation: each
`SongModel` field may be absent. -/
structure RawSong where
  name : Option String
  artists : Option (List String)
  artist : Option String
  album_name : Option String
  album_artist : Option String
  genres : Option (List String)
  disc_number : Option Int
  disc_count : Option Int
  copyright : Option String
  duration : Option Int
  year : Option Int
  date : Option String
  track_number : Option Int
  tracks_count : Option Int
  isrc : Option String
  song_id : Option String
  cover_url : Option String
  explicit : Option Bool
  publisher : Option String
  url : Option String
  download_url : Option String
  deriving Repr, DecidableEq

/-- A single required pydantic field: absent means a validation error
naming the field. -/
def reqField {α : Type} (fieldName : String) (v : Option α) : Except String α :=
  match v with
  | some a => Except.ok a
  | none => Except.error (fieldName ++ ": field required")

/-- Pydantic validation of `SongModel`: every field without a default is
required; `download_url` defaults to `None` when absent. -/
def validateSong (r : RawSong) : Except String SongModel := do
  let name ← reqField "name" r.name
  let artists ← reqField "artists" r.artists
  let artist ← reqField "artist" r.artist
  let album_name ← reqField "album_name" r.album_name
  let album_artist ← reqField "album_artist" r.album_artist
  let genres ← reqField "genres" r.genres
  let disc_number ← reqField "disc_number" r.disc_number
  let disc_count ← reqField "disc_count" r.disc_count
  let copyright ← reqField "copyright" r.copyright
  let duration ← reqField "duration" r.duration
  let year ← reqField "year" r.year
  let date ← reqField "date" r.date
  let track_number ← reqField "track_number" r.track_number
  let tracks_count ← reqField "tracks_count" r.tracks_count
  let isrc ← reqField "isrc" r.isrc
  let song_id ← reqField "song_id" r.song_id
  let cover_url ← reqField "cover_url" r.cover_url
  let explicit ← reqField "explicit" r.explicit
  let publisher ← reqField "publisher" r.publisher
  let url ← reqField "url" r.url
  pure { name := name, artists := artists, artist := artist,
         album_name := album_name, album_artist := album_artist,
         genres := genres, disc_number := disc_number,
         disc_count := disc_count, copyright := copyright,
         duration := duration, year := year, date := date,
         track_number := track_number, tracks_count := tracks_count,
         isrc := isrc, song_id := song_id, cover_url := cover_url,
         explicit := explicit, publisher := publisher, url := url,
         download_url := r.download_url }

/-- The object-download route as FastAPI runs it: pydantic validation of
the body first, then the handler.  A validation failure is rejected
before the handler (and hence `pool_download`) runs. -/
def download_objects_route (env : Env) (r : RawSong) (return_file : Bool) :
    Except String DlResponse :=
  match validateSong r with
  | Except.error e => Except.error e
  | Except.ok m => download_objects env m return_file

/-- A settings key, for stating per-field facts about the merge in
`change_settings` uniformly over all nineteen keys. -/
inductive SKey where
  | verbose | cache_path | audio_provider | lyrics_provider | ffmpeg
  | variable_bitrate | constant_bitrate | ffmpeg_args | format | save_file
  | m3u | output | overwrite | client_id | client_secret | user_auth
  | threads | browsers | progress_handler
  deriving Repr, DecidableEq

/-- A settings value of any of the four field types. -/
inductive SVal where
  | vb (x : Option Bool)
  | vs (x : Option String)
  | vi (x : Option Int)
  | vls (x : Option (List String))
  deriving Repr, DecidableEq

/-- Whether a settings value is `None`. -/
def SVal.isAbsent : SVal → Bool
  | SVal.vb none => true
  | SVal.vs none => true
  | SVal.vi none => true
  | SVal.vls none => true
  | _ => false

/-- Look a key up in the settings dict. -/
def dictVal (d : SettingsDict) : SKey → SVal
  | SKey.verbose => SVal.vb d.verbose
  | SKey.cache_path => SVal.vs d.cache_path
  | SKey.audio_provider => SVal.vs d.audio_provider
  | SKey.lyrics_provider => SVal.vs d.lyrics_provider
  | SKey.ffmpeg => SVal.vs d.ffmpeg
  | SKey.variable_bitrate => SVal.vi d.variable_bitrate
  | SKey.constant_bitrate => SVal.vi d.constant_bitrate
  | SKey.ffmpeg_args => SVal.vls d.ffmpeg_args
  | SKey.format => SVal.vs d.format
  | SKey.save_file => SVal.vs d.save_file
  | SKey.m3u => SVal.vs d.m3u
  | SKey.output => SVal.vs d.output
  | SKey.overwrite => SVal.vs d.overwrite
  | SKey.client_id => SVal.vs d.client_id
  | SKey.client_secret => SVal.vs d.client_secret
  | SKey.user_auth => SVal.vb d.user_auth
  | SKey.threads => SVal.vi d.threads
  | SKey.browsers => SVal.vls d.browsers
  | SKey.progress_handler => SVal.vs d.progress_handler

/-- Look a key up in an incoming settings model. -/
def modelVal (m : SettingsModel) : SKey → SVal
  | SKey.verbose => SVal.vb m.verbose
  | SKey.cache_path => SVal.vs m.cache_path
  | SKey.audio_provider => SVal.vs m.audio_provider
  | SKey.lyrics_provider => SVal.vs m.lyrics_provider
  | SKey.ffmpeg => SVal.vs m.ffmpeg
  | SKey.variable_bitrate => SVal.vi m.variable_bitrate
  | SKey.constant_bitrate => SVal.vi m.constant_bitrate
  | SKey.ffmpeg_args => SVal.vls m.ffmpeg_args
  | SKey.format => SVal.vs m.format
  | SKey.save_file => SVal.vs m.save_file
  | SKey.m3u => SVal.vs m.m3u
  | SKey.output => SVal.vs m.output
  | SKey.overwrite => SVal.vs m.overwrite
  | SKey.client_id => SVal.vs m.client_id
  | SKey.client_secret => SVal.vs m.client_secret
  | SKey.user_auth => SVal.vb m.user_auth
  | SKey.threads => SVal.vi m.threads
  | SKey.browsers => SVal.vls m.browsers
  | SKey.progress_handler => SVal.vs m.progress_handler

/-- A concrete settings dict, shaped like the sample configuration in the
source comments (placeholder credentials). -/
def sampleDict : SettingsDict :=
  { verbose := some false
    cache_path := some "."
    audio_provider := some "youtube-music"
    lyrics_provider := some "musixmatch"
    ffmpeg := some "ffmpeg"
    variable_bitrate := none
    constant_bitrate := none
    ffmpeg_args := none
    format := some "mp3"
    save_file := none
    m3u := none
    output := some "."
    overwrite := some "overwrite"
    client_id := some "client-id"
    client_secret := some "client-secret"
    user_auth := some false
    threads := some 1
    browsers := none
    progress_handler := none }

/-- A concrete app state whose downloader was built from the stored
settings, as the startup path does. -/
def sampleState : AppState :=
  { downloader := mkDownloader sampleDict, settings := sampleDict }

/-- The all-`None` incoming settings model (an empty request body). -/
def emptyModel : SettingsModel :=
  { verbose := none, cache_path := none, audio_provider := none
    lyrics_provider := none, ffmpeg := none, variable_bitrate := none
    constant_bitrate := none, ffmpeg_args := none, format := none
    save_file := none, m3u := none, output := none, overwrite := none
    client_id := none, client_secret := none, user_auth := none
    threads := none, browsers := none, progress_handler := none }

/-- An incoming settings model that only flips `verbose`. -/
def newVerbose : SettingsModel :=
  { emptyModel with verbose := some true }

/-- A concrete valid song model. -/
def sampleModel : SongModel :=
  { name := "song", artists := ["a"], artist := "a", album_name := "al"
    album_artist := "a", genres := ["g"], disc_number := 1, disc_count := 1
    copyright := "c", duration := 180, year := 2020, date := "2020-01-01"
    track_number := 1, tracks_count := 10, isrc := "isrc", song_id := "id"
    cover_url := "cover", explicit := false, publisher := "p", url := "u"
    download_url := none }

/-- A concrete raw request body carrying exactly the fields of
`sampleModel`, with `download_url` absent. -/
def sampleRaw : RawSong :=
  { name := some "song", artists := some ["a"], artist := some "a"
    album_name := some "al", album_artist := some "a", genres := some ["g"]
    disc_number := some 1, disc_count := some 1, copyright := some "c"
    duration := some 180, year := some 2020, date := some "2020-01-01"
    track_number := some 1, tracks_count := some 10, isrc := some "isrc"
    song_id := some "id", cover_url := some "cover", explicit := some false
    publisher := some "p", url := some "u", download_url := none }

/-- A raw request body missing the required `artist` field. -/
def missingRaw : RawSong :=
  { sampleRaw with artist := none }

/-- Collaborators whose download never produces a local file
(metadata-only outcome). -/
def metaEnv : Env :=
  { fromSearchTerm := fun _ => songOfModel sampleModel
    poolDownload := fun s => (s, none) }

/-- Collaborators with the same pool as `metaEnv` but a different search
function. -/
def altEnv : Env :=
  { fromSearchTerm := fun q => songOfModel { sampleModel with name := q }
    poolDownload := fun s => (s, none) }

/-- A `Downloader` constructor that always raises. -/
def ctorFail : SettingsDict → Except String Downloader :=
  fun _ => Except.error "boom"

/-- Modelled from the spec: the Bounded Executor behind
`Downloader.pool_download`.  Its implementation lives in the external
spotdl package, not under src/; the spec (sections 4.1 and 8) describes
it as a fixed-size worker pool whose limit is taken from the
configuration at pool-creation time, dispatching queued items FIFO.
State: the limit, the FIFO queue of submitted item ids, the ids
occupying workers, and the finished ids. -/
structure ExecState where
  limit : Nat
  pending : List Nat
  running : List Nat
  finished : List Nat
  deriving Repr, DecidableEq

/-- Modelled from the spec: a freshly created pool with limit `n` and no
items. -/
def initExec (n : Nat) : ExecState :=
  { limit := n, pending := [], running := [], finished := [] }

/-- Modelled from the spec: one transition of the Bounded Executor.
`submit` enqueues without blocking; `dispatch` moves the head of the
FIFO queue onto a worker only when a worker is free (fewer than `limit`
running); `finish` releases a worker. -/
inductive ExecStep : ExecState → ExecState → Prop where
  | submit (s : ExecState) (i : Nat) :
      ExecStep s { s with pending := s.pending ++ [i] }
  | dispatch (s : ExecState) (i : Nat) (rest : List Nat)
      (hfree : s.running.length < s.limit) (hq : s.pending = i :: rest) :
      ExecStep s { s with pending := rest, running := s.running ++ [i] }
  | finish (s : ExecState) (i : Nat) (hmem : i ∈ s.running) :
      ExecStep s { s with running := s.running.erase i,
                          finished := s.finished ++ [i] }

/-- Modelled from the spec: the states an executor created with limit
`n` can reach. -/
def ExecReach (s t : ExecState) : Prop :=
  Relation.ReflTransGen ExecStep s t

/-- Every executor transition keeps the limit and never pushes the
number of occupied workers above it. -/
theorem execStep_inv {a b : ExecState} (h : ExecStep a b) :
    b.limit = a.limit ∧
    (a.running.length ≤ a.limit → b.running.length ≤ a.limit) := by
  cases h with
  | submit i => exact ⟨rfl, fun hb => hb⟩
  | dispatch i rest hfree hq =>
      refine ⟨rfl, fun _ => ?_⟩
      simpa using hfree
  | finish i hmem =>
      refine ⟨rfl, fun hb => ?_⟩
      exact le_trans ((List.erase_sublist i a.running).length_le) hb

/-- A required pydantic field binds exactly when the raw value is present. -/
theorem reqField_bind_ok {α β : Type} {n : String} {v : Option α}
    {f : α → Except String β} {b : β} :
    reqField n v >>= f = Except.ok b ↔ ∃ a, v = some a ∧ f a = Except.ok b := by
  cases v <;> simp [reqField, Bind.bind, Except.bind]

/-- If pydantic validation of a raw body succeeds, every required field
was present and equals the corresponding model field, and `download_url`
was passed through unchanged. -/
theorem validateSong_ok_shape {r : RawSong} {m : SongModel}
    (h : validateSong r = Except.ok m) :
    r.name = some m.name ∧
    r.artists = some m.artists ∧
    r.artist = some m.artist ∧
    r.album_name = some m.album_name ∧
    r.album_artist = some m.album_artist ∧
    r.genres = some m.genres ∧
    r.disc_number = some m.disc_number ∧
    r.disc_count = some m.disc_count ∧
    r.copyright = some m.copyright ∧
    r.duration = some m.duration ∧
    r.year = some m.year ∧
    r.date = some m.date ∧
    r.track_number = some m.track_number ∧
    r.tracks_count = some m.tracks_count ∧
    r.isrc = some m.isrc ∧
    r.song_id = some m.song_id ∧
    r.cover_url = some m.cover_url ∧
    r.explicit = some m.explicit ∧
    r.publisher = some m.publisher ∧
    r.url = some m.url ∧
    r.download_url = m.download_url := by
  simp only [validateSong, reqField_bind_ok] at h
  obtain ⟨a0, e0, a1, e1, a2, e2, a3, e3, a4, e4, a5, e5, a6, e6, a7, e7, a8, e8, a9, e9, a10, e10, a11, e11, a12, e12, a13, e13, a14, e14, a15, e15, a16, e16, a17, e17, a18, e18, a19, e19, hm⟩ := h
  simp only [pure, Except.pure, Except.ok.injEq] at hm
  subst hm
  exact ⟨e0, e1, e2, e3, e4, e5, e6, e7, e8, e9, e10, e11, e12, e13, e14, e15, e16, e17, e18, e19, rfl⟩

/-- C7: reading the settings twice with no intervening mutation returns
identical snapshots: `get_settings` does not change the state, and two
successive reads yield equal results. -/
theorem get_settings_idempotent (s : AppState) :
    (get_settings s).1 = s ∧
    (get_settings ((get_settings s).1)).2 = (get_settings s).2 :=
  ⟨rfl, rfl⟩

/-- C9: `change_output` returns `True` unconditionally and modifies only
the downloader's `output` attribute: the stored settings dict (hence the
value returned by `get_settings`, whose `output` stays the old stored
value whatever path was passed) and every other downloader field are
unchanged, so the settings endpoint and the downloader's actual output
directory can diverge. -/
theorem change_output_frame (s : AppState) (p : String) :
    (change_output s p).2 = true ∧
    (change_output s p).1.downloader.output = some p ∧
    (change_output s p).1.settings = s.settings ∧
    (get_settings ((change_output s p).1)).2 = (get_settings s).2 ∧
    (get_settings ((change_output s p).1)).2.output = s.settings.output ∧
    (change_output s p).1.downloader.audio_provider = s.downloader.audio_provider ∧
    (change_output s p).1.downloader.lyrics_provider = s.downloader.lyrics_provider ∧
    (change_output s p).1.downloader.ffmpeg = s.downloader.ffmpeg ∧
    (change_output s p).1.downloader.variable_bitrate = s.downloader.variable_bitrate ∧
    (change_output s p).1.downloader.constant_bitrate = s.downloader.constant_bitrate ∧
    (change_output s p).1.downloader.ffmpeg_args = s.downloader.ffmpeg_args ∧
    (change_output s p).1.downloader.output_format = s.downloader.output_format ∧
    (change_output s p).1.downloader.save_file = s.downloader.save_file ∧
    (change_output s p).1.downloader.threads = s.downloader.threads ∧
    (change_output s p).1.downloader.overwrite = s.downloader.overwrite ∧
    (change_output s p).1.downloader.m3u_file = s.downloader.m3u_file ∧
    (change_output s p).1.downloader.progress_handler = s.downloader.progress_handler :=
  ⟨rfl, rfl, rfl, rfl, rfl, rfl, rfl, rfl, rfl, rfl, rfl, rfl, rfl, rfl, rfl, rfl, rfl⟩

/-- C3 counterexample: `change_output` succeeds, yet the snapshot
returned by `get_settings` afterwards does not report the new output
directory — the stored settings dict was never written. -/
theorem change_output_get_not_updated :
    (change_output sampleState "music").2 = true ∧
    (get_settings ((change_output sampleState "music").1)).2.output ≠
      some "music" :=
  ⟨rfl, by decide⟩

/-- C3: `change_output` and `change_settings` return success
unconditionally and touch nothing beyond the downloader replacement
itself (`change_output` sets the downloader's `output`, `change_settings`
swaps in a downloader rebuilt from the merged settings); neither writes
the stored settings dict, so the snapshot returned by `get_settings` is
unchanged and in particular does not report the new output path. -/
theorem change_ops_passthrough (s : AppState) (p : String)
    (new : SettingsModel) :
    (change_output s p).2 = true ∧
    (change_output s p).1.downloader.output = some p ∧
    (change_output s p).1.settings = s.settings ∧
    (change_settings ctorOk s new).2 = Except.ok true ∧
    (change_settings ctorOk s new).1.settings = s.settings ∧
    (change_settings ctorOk s new).1.downloader
      = mkDownloader (mergeSettings s.settings new) ∧
    (get_settings ((change_output s p).1)).2 = (get_settings s).2 ∧
    (get_settings ((change_settings ctorOk s new).1)).2 = (get_settings s).2 :=
  ⟨rfl, rfl, rfl, rfl, rfl, rfl, rfl, rfl⟩

/-- C1 counterexample: a successful `change_settings` that sets `verbose`
does not install the merged snapshot: the subsequent `get_settings` still
returns the old snapshot, not the merge of the input over it. -/
theorem change_settings_not_installed :
    (change_settings ctorOk sampleState newVerbose).2 = Except.ok true ∧
    (get_settings ((change_settings ctorOk sampleState newVerbose).1)).2 ≠
      settingsModelOfDict (mergeSettings sampleState.settings newVerbose) :=
  ⟨rfl, by decide⟩

/-- C1: `change_settings` merges the non-None fields of the input over
the current stored snapshot — every key absent from the input keeps its
prior value, every present key takes the input value — and rebuilds the
active downloader from the merged snapshot, returning success; but it
does not store the merged snapshot: the settings dict, and hence a
subsequent `get_settings`, still return the prior snapshot. -/
theorem change_settings_merge_semantics (s : AppState)
    (new : SettingsModel) :
    (change_settings ctorOk s new).2 = Except.ok true ∧
    (change_settings ctorOk s new).1.downloader
      = mkDownloader (mergeSettings s.settings new) ∧
    (change_settings ctorOk s new).1.settings = s.settings ∧
    (get_settings ((change_settings ctorOk s new).1)).2 = (get_settings s).2 ∧
    ∀ k, dictVal (mergeSettings s.settings new) k =
      if (modelVal new k).isAbsent = true then dictVal s.settings k
      else modelVal new k := by
  refine ⟨rfl, rfl, rfl, rfl, fun k => ?_⟩
  cases k
  case verbose => cases h : new.verbose <;>
    simp [dictVal, modelVal, mergeSettings, SVal.isAbsent, h]
  case cache_path => cases h : new.cache_path <;>
    simp [dictVal, modelVal, mergeSettings, SVal.isAbsent, h]
  case audio_provider => cases h : new.audio_provider <;>
    simp [dictVal, modelVal, mergeSettings, SVal.isAbsent, h]
  case lyrics_provider => cases h : new.lyrics_provider <;>
    simp [dictVal, modelVal, mergeSettings, SVal.isAbsent, h]
  case ffmpeg => cases h : new.ffmpeg <;>
    simp [dictVal, modelVal, mergeSettings, SVal.isAbsent, h]
  case variable_bitrate => cases h : new.variable_bitrate <;>
    simp [dictVal, modelVal, mergeSettings, SVal.isAbsent, h]
  case constant_bitrate => cases h : new.constant_bitrate <;>
    simp [dictVal, modelVal, mergeSettings, SVal.isAbsent, h]
  case ffmpeg_args => cases h : new.ffmpeg_args <;>
    simp [dictVal, modelVal, mergeSettings, SVal.isAbsent, h]
  case format => cases h : new.format <;>
    simp [dictVal, modelVal, mergeSettings, SVal.isAbsent, h]
  case save_file => cases h : new.save_file <;>
    simp [dictVal, modelVal, mergeSettings, SVal.isAbsent, h]
  case m3u => cases h : new.m3u <;>
    simp [dictVal, modelVal, mergeSettings, SVal.isAbsent, h]
  case output => cases h : new.output <;>
    simp [dictVal, modelVal, mergeSettings, SVal.isAbsent, h]
  case overwrite => cases h : new.overwrite <;>
    simp [dictVal, modelVal, mergeSettings, SVal.isAbsent, h]
  case client_id => cases h : new.client_id <;>
    simp [dictVal, modelVal, mergeSettings, SVal.isAbsent, h]
  case client_secret => cases h : new.client_secret <;>
    simp [dictVal, modelVal, mergeSettings, SVal.isAbsent, h]
  case user_auth => cases h : new.user_auth <;>
    simp [dictVal, modelVal, mergeSettings, SVal.isAbsent, h]
  case threads => cases h : new.threads <;>
    simp [dictVal, modelVal, mergeSettings, SVal.isAbsent, h]
  case browsers => cases h : new.browsers <;>
    simp [dictVal, modelVal, mergeSettings, SVal.isAbsent, h]
  case progress_handler => cases h : new.progress_handler <;>
    simp [dictVal, modelVal, mergeSettings, SVal.isAbsent, h]


/-- C6: if constructing the new downloader during `change_settings`
raises, the previously active state is left fully intact: same
downloader, same stored settings, and the error propagates. -/
theorem change_settings_error_keeps_state
    (ctor : SettingsDict → Except String Downloader) (s : AppState)
    (new : SettingsModel) (e : String)
    (h : ctor (mergeSettings s.settings new) = Except.error e) :
    (change_settings ctor s new).1 = s ∧
    (change_settings ctor s new).2 = Except.error e ∧
    (change_settings ctor s new).1.downloader = s.downloader ∧
    (change_settings ctor s new).1.settings = s.settings := by
  simp [change_settings, h]

/-- Witness for C6 at a constructor that always raises. -/
theorem change_settings_error_keeps_state_witness :
    (change_settings ctorFail sampleState newVerbose).1 = sampleState ∧
    (change_settings ctorFail sampleState newVerbose).2
      = Except.error "boom" ∧
    (change_settings ctorFail sampleState newVerbose).1.downloader
      = sampleState.downloader ∧
    (change_settings ctorFail sampleState newVerbose).1.settings
      = sampleState.settings :=
  change_settings_error_keeps_state ctorFail sampleState newVerbose "boom" rfl

/-- C5 counterexample: starting from a state whose downloader was built
from the stored settings, `change_output` mutates the downloader's
`output` field in place; afterwards the downloader agrees with no
settings-derived construction of the state — an observer reading the
downloader and the settings snapshot sees a torn configuration (two
different output directories). -/
theorem change_output_torn_config :
    sampleState.downloader = mkDownloader sampleState.settings ∧
    (change_output sampleState "music").1.downloader.output
      = some "music" ∧
    (get_settings ((change_output sampleState "music").1)).2.output
      = some "." ∧
    (change_output sampleState "music").1.downloader ≠
      mkDownloader ((change_output sampleState "music").1.settings) :=
  ⟨rfl, rfl, rfl, by decide⟩

/-- C5: `change_settings` does replace the downloader by a single
reference assignment of a freshly and fully constructed object, but
`change_output` instead mutates the `output` field of the shared
downloader in place and neither operation writes the settings dict, so
an observer reading both pieces of shared state can see a configuration
torn between them: the downloader's output is the new path while the
snapshot from `get_settings` still reports the old one. -/
theorem config_swap_vs_field_mutation (s : AppState)
    (new : SettingsModel) (p : String)
    (hout : s.settings.output ≠ some p) :
    (change_settings ctorOk s new).1.downloader
      = mkDownloader (mergeSettings s.settings new) ∧
    (change_output s p).1.downloader
      = { s.downloader with output := some p } ∧
    (change_output s p).1.downloader.output = some p ∧
    (get_settings ((change_output s p).1)).2.output ≠ some p :=
  ⟨rfl, rfl, rfl, hout⟩

/-- Witness for C5 at the sample state and a fresh output path. -/
theorem config_swap_vs_field_mutation_witness :
    (change_settings ctorOk sampleState newVerbose).1.downloader
      = mkDownloader (mergeSettings sampleState.settings newVerbose) ∧
    (change_output sampleState "music").1.downloader
      = { sampleState.downloader with output := some "music" } ∧
    (change_output sampleState "music").1.downloader.output
      = some "music" ∧
    (get_settings ((change_output sampleState "music").1)).2.output ≠
      some "music" :=
  config_swap_vs_field_mutation sampleState newVerbose "music" (by decide)

/-- C2: when the pool produces no local file path, both download routes
raise the no-file error if a file was requested, and succeed with the
song metadata and an absent file reference otherwise. -/
theorem download_no_file (env : Env) (query : String) (m : SongModel)
    (h1 : (env.poolDownload (env.fromSearchTerm query)).2 = none)
    (h2 : (env.poolDownload (songOfModel m)).2 = none) :
    download_search env query true = Except.error "No file found" ∧
    download_search env query false =
      Except.ok (DlResponse.pair
        (env.poolDownload (env.fromSearchTerm query)).1 none) ∧
    download_objects env m true = Except.error "No file found" ∧
    download_objects env m false =
      Except.ok (DlResponse.pair
        (env.poolDownload (songOfModel m)).1 none) := by
  refine ⟨?_, ?_, ?_, ?_⟩ <;>
    simp [download_search, download_objects, h1, h2]

/-- Witness for C2 with collaborators whose download is metadata-only. -/
theorem download_no_file_witness :
    download_search metaEnv "q" true = Except.error "No file found" ∧
    download_search metaEnv "q" false =
      Except.ok (DlResponse.pair (songOfModel sampleModel) none) ∧
    download_objects metaEnv sampleModel true
      = Except.error "No file found" ∧
    download_objects metaEnv sampleModel false =
      Except.ok (DlResponse.pair (songOfModel sampleModel) none) :=
  download_no_file metaEnv "q" sampleModel rfl rfl

/-- C8: the object route validates the body first and, on success,
builds the spotdl song directly from the validated fields
(`Song(**song.dict())`), with no call to the search collaborator: the
outcome is independent of the search function, and the route factors
through the handler on the validated model. -/
theorem download_objects_no_search (env1 env2 : Env) (m : SongModel)
    (rf : Bool) (r : RawSong)
    (hpool : env1.poolDownload = env2.poolDownload)
    (hr : validateSong r = Except.ok m) :
    download_objects env1 m rf = download_objects env2 m rf ∧
    download_objects_route env1 r rf = download_objects env1 m rf ∧
    songOfModel m =
      { name := m.name, artists := m.artists, artist := m.artist, album_name := m.album_name,
        album_artist := m.album_artist, genres := m.genres, disc_number := m.disc_number, disc_count := m.disc_count,
        copyright := m.copyright, duration := m.duration, year := m.year, date := m.date, track_number := m.track_number,
        tracks_count := m.tracks_count, isrc := m.isrc, song_id := m.song_id, cover_url := m.cover_url,
        explicit := m.explicit, publisher := m.publisher, url := m.url,
        download_url := m.download_url } := by
  refine ⟨?_, ?_, rfl⟩
  · simp [download_objects, hpool]
  · simp [download_objects_route, hr]

/-- Witness for C8: two collaborator sets sharing the pool but with
different search functions give the same result on the sample body. -/
theorem download_objects_no_search_witness :
    download_objects metaEnv sampleModel false
      = download_objects altEnv sampleModel false ∧
    download_objects_route metaEnv sampleRaw false
      = download_objects metaEnv sampleModel false ∧
    songOfModel sampleModel =
      { name := sampleModel.name, artists := sampleModel.artists, artist := sampleModel.artist, album_name := sampleModel.album_name,
        album_artist := sampleModel.album_artist, genres := sampleModel.genres, disc_number := sampleModel.disc_number, disc_count := sampleModel.disc_count,
        copyright := sampleModel.copyright, duration := sampleModel.duration, year := sampleModel.year, date := sampleModel.date,
        track_number := sampleModel.track_number, tracks_count := sampleModel.tracks_count, isrc := sampleModel.isrc, song_id := sampleModel.song_id,
        cover_url := sampleModel.cover_url, explicit := sampleModel.explicit, publisher := sampleModel.publisher, url := sampleModel.url,
        download_url := sampleModel.download_url } :=
  download_objects_no_search metaEnv altEnv sampleModel false sampleRaw
    rfl rfl


/-- C10: in an object submission every song field except `download_url`
is mandatory: a body missing any other field fails validation, so the
route rejects it with an error whatever the collaborators are — no song
is constructed and no download starts; a body with all required fields
validates even with `download_url` absent, which then defaults to
`None`. -/
theorem song_required_fields (r : RawSong) (rf : Bool) :
    ((r.name = none ∨
      r.artists = none ∨
      r.artist = none ∨
      r.album_name = none ∨
      r.album_artist = none ∨
      r.genres = none ∨
      r.disc_number = none ∨
      r.disc_count = none ∨
      r.copyright = none ∨
      r.duration = none ∨
      r.year = none ∨
      r.date = none ∨
      r.track_number = none ∨
      r.tracks_count = none ∨
      r.isrc = none ∨
      r.song_id = none ∨
      r.cover_url = none ∨
      r.explicit = none ∨
      r.publisher = none ∨
      r.url = none) →
      (∀ m, ¬ validateSong r = Except.ok m) ∧
      (∃ e, ∀ env : Env,
        download_objects_route env r rf = Except.error e)) ∧
    ((r.name.isSome = true ∧
      r.artists.isSome = true ∧
      r.artist.isSome = true ∧
      r.album_name.isSome = true ∧
      r.album_artist.isSome = true ∧
      r.genres.isSome = true ∧
      r.disc_number.isSome = true ∧
      r.disc_count.isSome = true ∧
      r.copyright.isSome = true ∧
      r.duration.isSome = true ∧
      r.year.isSome = true ∧
      r.date.isSome = true ∧
      r.track_number.isSome = true ∧
      r.tracks_count.isSome = true ∧
      r.isrc.isSome = true ∧
      r.song_id.isSome = true ∧
      r.cover_url.isSome = true ∧
      r.explicit.isSome = true ∧
      r.publisher.isSome = true ∧
      r.url.isSome = true) →
      ∃ m, validateSong r = Except.ok m ∧
        m.download_url = r.download_url) := by
  constructor
  · intro hmiss
    have hnot : ∀ m, ¬ validateSong r = Except.ok m := by
      intro m hok
      have hs := validateSong_ok_shape hok
      rcases hmiss with h|h|h|h|h|h|h|h|h|h|h|h|h|h|h|h|h|h|h|h <;> simp_all
    refine ⟨hnot, ?_⟩
    cases hv : validateSong r with
    | error e =>
        exact ⟨e, fun env => by simp [download_objects_route, hv]⟩
    | ok m => exact absurd hv (hnot m)
  · intro hall
    obtain ⟨h1, h2, h3, h4, h5, h6, h7, h8, h9, h10, h11, h12, h13, h14, h15, h16, h17, h18, h19, h20⟩ := hall
    obtain ⟨v1, e1⟩ := Option.isSome_iff_exists.mp h1
    obtain ⟨v2, e2⟩ := Option.isSome_iff_exists.mp h2
    obtain ⟨v3, e3⟩ := Option.isSome_iff_exists.mp h3
    obtain ⟨v4, e4⟩ := Option.isSome_iff_exists.mp h4
    obtain ⟨v5, e5⟩ := Option.isSome_iff_exists.mp h5
    obtain ⟨v6, e6⟩ := Option.isSome_iff_exists.mp h6
    obtain ⟨v7, e7⟩ := Option.isSome_iff_exists.mp h7
    obtain ⟨v8, e8⟩ := Option.isSome_iff_exists.mp h8
    obtain ⟨v9, e9⟩ := Option.isSome_iff_exists.mp h9
    obtain ⟨v10, e10⟩ := Option.isSome_iff_exists.mp h10
    obtain ⟨v11, e11⟩ := Option.isSome_iff_exists.mp h11
    obtain ⟨v12, e12⟩ := Option.isSome_iff_exists.mp h12
    obtain ⟨v13, e13⟩ := Option.isSome_iff_exists.mp h13
    obtain ⟨v14, e14⟩ := Option.isSome_iff_exists.mp h14
    obtain ⟨v15, e15⟩ := Option.isSome_iff_exists.mp h15
    obtain ⟨v16, e16⟩ := Option.isSome_iff_exists.mp h16
    obtain ⟨v17, e17⟩ := Option.isSome_iff_exists.mp h17
    obtain ⟨v18, e18⟩ := Option.isSome_iff_exists.mp h18
    obtain ⟨v19, e19⟩ := Option.isSome_iff_exists.mp h19
    obtain ⟨v20, e20⟩ := Option.isSome_iff_exists.mp h20
    refine ⟨{ name := v1, artists := v2, artist := v3, album_name := v4, album_artist := v5, genres := v6, disc_number := v7, disc_count := v8, copyright := v9, duration := v10, year := v11, date := v12, track_number := v13, tracks_count := v14, isrc := v15, song_id := v16, cover_url := v17, explicit := v18, publisher := v19, url := v20,
              download_url := r.download_url }, ?_, rfl⟩
    simp [validateSong, reqField, Bind.bind, Except.bind, pure,
      Except.pure, e1, e2, e3, e4, e5, e6, e7, e8, e9, e10, e11, e12, e13, e14, e15, e16, e17, e18, e19, e20]

/-- Witness for C10: a body missing `artist` is rejected independently
of the collaborators, while the full sample body with `download_url`
absent validates with `download_url = None`. -/
theorem song_required_fields_witness :
    (∃ e, ∀ env : Env,
      download_objects_route env missingRaw false = Except.error e) ∧
    (∃ m, validateSong sampleRaw = Except.ok m ∧
      m.download_url = sampleRaw.download_url) :=
  ⟨((song_required_fields missingRaw false).1
      (Or.inr (Or.inr (Or.inl rfl)))).2,
   (song_required_fields sampleRaw false).2 (by decide)⟩

/-- C4: for a worker pool created with concurrency limit N ≥ 1 and any
number M > N of submitted items, every reachable executor state keeps at
most N items on workers, the limit being the one fixed at pool-creation
time.  The executor is modelled from the spec, since `pool_download`
lives in the external spotdl package. -/
theorem executor_bounded (n m : Nat) (s : ExecState)
    (_hn : 1 ≤ n) (_hm : n < m)
    (hreach : ExecReach (initExec n) s)
    (_hcount : s.pending.length + s.running.length + s.finished.length
      = m) :
    s.running.length ≤ n ∧ s.limit = n := by
  have key : ∀ t : ExecState, Relation.ReflTransGen ExecStep (initExec n) t →
      t.running.length ≤ n ∧ t.limit = n := by
    intro t ht
    induction ht with
    | refl => exact ⟨Nat.zero_le n, rfl⟩
    | tail hab hbc ih =>
        obtain ⟨hlen, hlim⟩ := ih
        obtain ⟨hlim2, hmono⟩ := execStep_inv hbc
        refine ⟨?_, by rw [hlim2, hlim]⟩
        have hc := hmono (by rw [hlim]; exact hlen)
        rw [hlim] at hc
        exact hc
  exact key s hreach

/-- Witness for C4: limit 1, two submissions, one dispatched — the
reachable state occupies one worker and respects the limit. -/
theorem executor_bounded_witness :
    (ExecState.mk 1 [1] [0] []).running.length ≤ 1 ∧
    (ExecState.mk 1 [1] [0] []).limit = 1 :=
  executor_bounded 1 2 (ExecState.mk 1 [1] [0] []) (by decide) (by decide)
    (Relation.ReflTransGen.tail
      (Relation.ReflTransGen.tail
        (Relation.ReflTransGen.tail Relation.ReflTransGen.refl
          (ExecStep.submit (initExec 1) 0))
        (ExecStep.submit (ExecState.mk 1 [0] [] []) 1))
      (ExecStep.dispatch (ExecState.mk 1 [0, 1] [] []) 0 [1]
        (by decide) rfl))
    (by decide)


end Web


